import Mathlib

set_option linter.unusedVariables false

/-!
Verification of the Zom-B survival-game core against its specification.

The development shallowly embeds the TypeScript sources:
  * `lib/gameBalance.ts`   — balance constants and damage/skill formulas,
  * `lib/combatEngine.ts`  — the turn-based combat state machine,
  * `lib/rotjsIntegration.ts` — world generation, FOV, line of sight,
  * `components/GameScreen.tsx` — the host's peer message handler.

Conventions: JavaScript numbers are modelled as `ℚ` (damage, hit points)
or `ℤ` (action points, skill levels, counters); `Math.random()` draws are
an explicit tape of rationals in `[0,1)` threaded through every function
that consumes randomness; the globally seeded ROT.js RNG is explicit
state.  Facilities of the external `rot-js` library (Digger, Cellular,
PreciseShadowcasting, AStar) are not part of the repository; they are
modelled from the specification's description and marked as such.
-/

namespace ZomB

/-- One `Math.random()` tape: an explicit list of rationals in `[0,1)`.
An exhausted tape yields `0`. -/
structure Rng where
  tape : List ℚ
deriving DecidableEq

/-- Draw the next `Math.random()` value from the tape. -/
def Rng.next : Rng → ℚ × Rng
  | ⟨[]⟩ => (0, ⟨[]⟩)
  | ⟨q :: t⟩ => (q, ⟨t⟩)

/-- `String.prototype.toLowerCase`, written to compute on character
lists. -/
def strToLower (s : String) : String := ⟨s.data.map Char.toLower⟩

/-- Substring test on strings (JavaScript `String.prototype.includes`). -/
def strHasSub (hay needle : String) : Bool :=
  (List.range (hay.data.length + 1)).any
    (fun i => needle.data.isPrefixOf (hay.data.drop i))

/-! ## Balance constants (`lib/gameBalance.ts`, `GAME_BALANCE`) -/

namespace GameBalance

def baseActionPoints : ℤ := 3
def maxActionPoints : ℤ := 3
def baseDamage : ℚ := 10
def damageVariance : ℚ := 0.2
def criticalHitChance : ℚ := 0.1
def criticalMultiplier : ℚ := 1.5
def defenseDamageReduction : ℚ := 0.5
def fleeBaseChance : ℚ := 0.6
def baseSuccessChance : ℚ := 0.4
def bonusPerLevel : ℚ := 0.05
def maxSkillLevel : ℤ := 10
def meleeCritBonus : ℚ := 0.15
def meleeStunChance : ℚ := 0.2
def executionChance : ℚ := 0.25
def jamChanceL1to3 : ℚ := 0.05
def jamChanceL4to7 : ℚ := 0.02
def headshotBonus : ℚ := 0.2
def apRefundL8to10 : Bool := true
def healingBonus : ℚ := 0.5
def skillGrowthOnCritical : ℤ := 1

end GameBalance

/-! ## Balance formulas (`lib/gameBalance.ts`) -/

/-- `calculateDamage(baseDamage, targetDefense, isCritical)`; `r` is the
`Math.random()` draw used for the variance roll. -/
def calculateDamage (baseDamage targetDefense : ℚ) (isCritical : Bool) (r : ℚ) : ℤ :=
  let damage := baseDamage * (1 + (r * 2 - 1) * GameBalance.damageVariance)
  let damage := max 1 (damage - targetDefense)
  let damage := if isCritical then damage * GameBalance.criticalMultiplier else damage
  Int.floor damage

/-- `calculateSkillSuccessChance(skillLevel)`. -/
def calculateSkillSuccessChance (skillLevel : ℤ) : ℚ :=
  GameBalance.baseSuccessChance +
    ((min skillLevel GameBalance.maxSkillLevel : ℤ) : ℚ) * GameBalance.bonusPerLevel

inductive SkillType
  | melee
  | firearms
deriving DecidableEq

/-- `rollCriticalHit(skillLevel, skillType)`; `r` is the `Math.random()` draw. -/
def rollCriticalHit (skillLevel : ℤ) (skillType : SkillType) (r : ℚ) : Bool :=
  let critChance := GameBalance.criticalHitChance
  let critChance :=
    if skillType = SkillType.melee ∧ 4 ≤ skillLevel ∧ skillLevel ≤ 7 then
      critChance + GameBalance.meleeCritBonus
    else critChance
  let critChance :=
    if skillType = SkillType.firearms ∧ 4 ≤ skillLevel ∧ skillLevel ≤ 7 then
      critChance + GameBalance.headshotBonus
    else critChance
  decide (r < critChance)

/-! ## Data model (`types.ts`) -/

inductive RangeTier
  | meleeRange
  | nearRange
  | farRange
deriving DecidableEq

structure Enemy where
  id : String
  name : String
  hp : ℚ
  maxHp : ℚ
  status : String
  intent : Option String := none
  range : Option RangeTier := none
deriving DecidableEq

inductive GamePhase
  | exploration
  | combat
deriving DecidableEq

structure GameState where
  hp : ℚ
  maxHp : ℚ
  infectionLevel : ℚ
  supplies : ℤ
  day : ℤ
  time : String
  location : String
  inventory : List String
  equippedWeapon : Option String
  skills : List (String × ℤ)
  phase : GamePhase
  actionPoints : ℤ
  maxActionPoints : ℤ
  enemies : List Enemy
  lastActionSummary : String
deriving DecidableEq

/-- JavaScript `gameState.skills[name] || 1`: a missing or zero entry reads
as level 1. -/
def skillGet (skills : List (String × ℤ)) (name : String) : ℤ :=
  match skills.lookup name with
  | some v => if v = 0 then 1 else v
  | none => 1

/-- JavaScript `gameState.skills[name] = v`: overwrite the binding, adding
it if absent. -/
def skillSet (skills : List (String × ℤ)) (name : String) (v : ℤ) : List (String × ℤ) :=
  match skills with
  | [] => [(name, v)]
  | (k, w) :: rest => if k = name then (k, v) :: rest else (k, w) :: skillSet rest name v

/-! ## Combat engine data (`lib/combatEngine.ts`) -/

inductive CombatPhase
  | playerTurn
  | enemyTurn
  | victory
  | defeat
  | fled
deriving DecidableEq

inductive CombatActionType
  | attack
  | defend
  | useItem
  | flee
  | move
deriving DecidableEq

inductive MoveDirection
  | closer
  | away
deriving DecidableEq

structure CombatAction where
  type : CombatActionType
  targetId : Option String := none
  itemId : Option String := none
  direction : Option MoveDirection := none
deriving DecidableEq

inductive ResultType
  | damage
  | heal
  | defend
  | fleeSuccess
  | fleeFail
  | move
  | enemyAttack
  | skillIncrease
  | execution
  | stun
  | jam
  | apRefund
deriving DecidableEq

structure CombatResult where
  success : Bool
  rtype : ResultType
  amount : Option ℚ := none
  targetId : Option String := none
  targetName : Option String := none
  message : String
  critical : Option Bool := none
deriving DecidableEq

structure CombatState where
  phase : CombatPhase
  round : ℤ
  playerActionPoints : ℤ
  defendActive : Bool
  log : List CombatResult
deriving DecidableEq

/-- The combat-state initializer in the `CombatEngine` constructor. -/
def initCombatState (gameState : GameState) : CombatState :=
  { phase := CombatPhase.playerTurn
    round := 1
    playerActionPoints := gameState.actionPoints
    defendActive := false
    log := [] }

/-! ## Combat engine operations (`lib/combatEngine.ts`, class `CombatEngine`) -/

/-- `CombatEngine.isFirearm(weaponName)`: substring sniffing on the
lower-cased name; `null` and the empty string are falsy. -/
def isFirearm (weaponName : Option String) : Bool :=
  match weaponName with
  | none => false
  | some w =>
    if w = "" then false
    else
      let name := strToLower w
      strHasSub name "gun" || strHasSub name "pistol" || strHasSub name "rifle" ||
        strHasSub name "shotgun" || strHasSub name "smg" || strHasSub name "revolver" ||
        strHasSub name "bow"

/-- `this.gameState.enemies.find(e => e.id === targetId)`. -/
def findEnemy (enemies : List Enemy) (targetId : String) : Option Enemy :=
  enemies.find? (fun e => e.id = targetId)

/-- In-place mutation of the enemy object returned by `find`: rewrite the
first list entry whose id matches. -/
def updateEnemyFirst (enemies : List Enemy) (targetId : String) (f : Enemy → Enemy) :
    List Enemy :=
  match enemies with
  | [] => []
  | e :: rest =>
    if e.id = targetId then f e :: rest else e :: updateEnemyFirst rest targetId f

/-- `CombatEngine.isActionValid(action)`.  JavaScript `!action.targetId`
and `!action.itemId` treat the empty string as missing. -/
def isActionValid (gs : GameState) (cs : CombatState) (action : CombatAction) : Bool :=
  if cs.phase ≠ CombatPhase.playerTurn then false
  else if cs.playerActionPoints < 1 then false
  else if action.type = CombatActionType.attack then
    match action.targetId with
    | none => false
    | some tid =>
      if tid = "" then false
      else
        match findEnemy gs.enemies tid with
        | none => false
        | some target => decide (target.hp > 0)
  else if action.type = CombatActionType.useItem then
    match action.itemId with
    | none => false
    | some iid =>
      if iid = "" then false else gs.inventory.contains iid
  else true

/-- `equippedWeapon || 'Fists'` (empty string is falsy). -/
def effectiveWeapon (gs : GameState) : String :=
  match gs.equippedWeapon with
  | none => "Fists"
  | some w => if w = "" then "Fists" else w

/-- Tail of `processAttack` from the damage computation on (reached after
the hit roll, the critical roll, and a failed or skipped execution roll). -/
def processAttackDamage (gs : GameState) (cs : CombatState) (rng : Rng) (target : Enemy)
    (isF : Bool) (skillLevel : ℤ) (isCritical : Bool) :
    GameState × CombatState × Rng × List CombatResult :=
  let pd := rng.next
  let rd := pd.1
  let rng := pd.2
  let defense : ℚ := if target.maxHp > 50 then target.maxHp / 10 else 2
  let damage := calculateDamage GameBalance.baseDamage defense isCritical rd
  let newHp := max 0 (target.hp - (damage : ℚ))
  let gs := { gs with enemies := updateEnemyFirst gs.enemies target.id
                        (fun e => { e with hp := max 0 (e.hp - (damage : ℚ)) }) }
  let tn := target.name
  let mhp := target.maxHp
  let results : List CombatResult :=
    [{ success := true, rtype := ResultType.damage, amount := some (damage : ℚ),
       targetId := some target.id, targetName := some tn,
       message := s!"Dealt {damage} damage to {tn} ({newHp}/{mhp} HP remaining)",
       critical := some isCritical }]
  -- stun (melee level 4-7)
  let stunStep : GameState × Rng × List CombatResult :=
    if isF = false ∧ 4 ≤ skillLevel ∧ skillLevel ≤ 7 then
      let ps := rng.next
      let rs := ps.1
      let rng' := ps.2
      if rs < GameBalance.meleeStunChance then
        ({ gs with enemies := updateEnemyFirst gs.enemies target.id
                      (fun e => { e with status := "Stunned" }) },
         rng',
         results ++ [{ success := true, rtype := ResultType.stun,
                       targetId := some target.id, targetName := some tn,
                       message := s!"{tn} is stunned!" }])
      else (gs, rng', results)
    else (gs, rng, results)
  let gs := stunStep.1
  let rng := stunStep.2.1
  let results := stunStep.2.2
  -- AP refund on kill (firearms level 8-10)
  let refundStep : CombatState × List CombatResult :=
    if newHp ≤ 0 ∧ isF = true ∧ 8 ≤ skillLevel ∧ GameBalance.apRefundL8to10 = true then
      let ap := min (cs.playerActionPoints + 1) GameBalance.maxActionPoints
      ({ cs with playerActionPoints := ap },
       results ++ [{ success := true, rtype := ResultType.apRefund,
                     message := "Kill Streak! +1 AP refunded" }])
    else (cs, results)
  let cs := refundStep.1
  let results := refundStep.2
  -- skill increase on critical
  let skillStep : GameState × List CombatResult :=
    if isCritical = true ∧ skillLevel < GameBalance.maxSkillLevel then
      let skillName := if isF then "Firearms" else "Melee"
      let newSkills := skillSet gs.skills skillName
        (skillLevel + GameBalance.skillGrowthOnCritical)
      let newLevel := skillGet newSkills skillName
      ({ gs with skills := newSkills },
       results ++ [{ success := true, rtype := ResultType.skillIncrease,
                     message := s!"{skillName} skill increased to Level {newLevel}!" }])
    else (gs, results)
  (skillStep.1, cs, rng, skillStep.2)

/-- `processAttack` from the hit roll on (after the jam check). -/
def processAttackFromHitRoll (gs : GameState) (cs : CombatState) (rng : Rng) (target : Enemy)
    (isF : Bool) (skillLevel : ℤ) :
    GameState × CombatState × Rng × List CombatResult :=
  let hitChance := calculateSkillSuccessChance skillLevel
  let ph := rng.next
  let rh := ph.1
  let rng := ph.2
  if rh > hitChance then
    let tn := target.name
    (gs, cs, rng,
      [{ success := false, rtype := ResultType.damage, targetId := some target.id,
         targetName := some tn, message := s!"Attack missed {tn}!" }])
  else
    let pc := rng.next
    let rc := pc.1
    let rng := pc.2
    let isCritical := rollCriticalHit skillLevel
      (if isF then SkillType.firearms else SkillType.melee) rc
    -- execution branch (melee level 8-10 on crit); the inner AP-refund
    -- check is in the source even though `isFirearm` cannot hold here
    if isF = false ∧ 8 ≤ skillLevel ∧ isCritical = true then
      let pe := rng.next
      let re := pe.1
      let rng := pe.2
      if re < GameBalance.executionChance then
        let gs := { gs with enemies := updateEnemyFirst gs.enemies target.id
                              (fun e => { e with hp := 0 }) }
        let tn := target.name
        let results : List CombatResult :=
          [{ success := true, rtype := ResultType.execution, targetId := some target.id,
             targetName := some tn,
             message := s!"EXECUTION! {tn} decapitated instantly!", critical := some true }]
        if isF = true ∧ 8 ≤ skillLevel ∧ GameBalance.apRefundL8to10 = true then
          let ap := min (cs.playerActionPoints + 1) GameBalance.maxActionPoints
          (gs,
           { cs with playerActionPoints := ap },
           rng,
           results ++ [{ success := true, rtype := ResultType.apRefund,
                         message := "Kill Streak! +1 AP refunded" }])
        else (gs, cs, rng, results)
      else processAttackDamage gs cs rng target isF skillLevel isCritical
    else processAttackDamage gs cs rng target isF skillLevel isCritical

/-- `CombatEngine.processAttack(targetId)`. -/
def processAttack (gs : GameState) (cs : CombatState) (rng : Rng) (targetId : String) :
    GameState × CombatState × Rng × List CombatResult :=
  match findEnemy gs.enemies targetId with
  | none => (gs, cs, rng, [])
  | some target =>
    let equippedWeapon := effectiveWeapon gs
    let isF := isFirearm (some equippedWeapon)
    let skillLevel := skillGet gs.skills (if isF then "Firearms" else "Melee")
    if isF = true ∧ skillLevel ≤ 7 then
      let jamChance :=
        if skillLevel ≤ 3 then GameBalance.jamChanceL1to3 else GameBalance.jamChanceL4to7
      let pj := rng.next
      let rj := pj.1
      let rng' := pj.2
      if rj < jamChance then
        (gs, cs, rng',
          [{ success := false, rtype := ResultType.jam,
             message := s!"Weapon jammed! {equippedWeapon} failed to fire." }])
      else processAttackFromHitRoll gs cs rng' target isF skillLevel
    else processAttackFromHitRoll gs cs rng target isF skillLevel

/-- `CombatEngine.processDefend()`. -/
def processDefend (cs : CombatState) : CombatState × List CombatResult :=
  ({ cs with defendActive := true },
   [{ success := true, rtype := ResultType.defend,
      message := "Defensive stance activated. Incoming damage reduced by 50% this round." }])

/-- `array.indexOf(x)` followed by `splice(index, 1)`: drop the first
occurrence if present. -/
def removeFirst (xs : List String) (x : String) : List String :=
  match xs with
  | [] => []
  | y :: ys => if y = x then ys else y :: removeFirst ys x

/-- `CombatEngine.processUseItem(itemId)`. -/
def processUseItem (gs : GameState) (itemId : String) : GameState × List CombatResult :=
  let itemLower := strToLower itemId
  if strHasSub itemLower "bandage" || strHasSub itemLower "medkit" ||
      strHasSub itemLower "heal" then
    let healAmount : ℚ := 25
    let medicalLevel := skillGet gs.skills "Medical"
    let healAmount :=
      if 4 ≤ medicalLevel then healAmount * (1 + GameBalance.healingBonus) else healAmount
    let newHp := min gs.maxHp (gs.hp + healAmount)
    let gs := { gs with hp := newHp, inventory := removeFirst gs.inventory itemId }
    let mhp := gs.maxHp
    (gs,
      [{ success := true, rtype := ResultType.heal, amount := some healAmount,
         message := s!"Used {itemId}. Restored {healAmount} HP ({newHp}/{mhp})" }])
  else
    (gs,
      [{ success := false, rtype := ResultType.heal,
         message := s!"{itemId} cannot be used in combat" }])

/-- `CombatEngine.processFlee()`. -/
def processFlee (gs : GameState) (cs : CombatState) (rng : Rng) :
    GameState × CombatState × Rng × List CombatResult :=
  let pf := rng.next
  let rf := pf.1
  let rng := pf.2
  if rf < GameBalance.fleeBaseChance then
    ({ gs with phase := GamePhase.exploration, enemies := [] },
     { cs with phase := CombatPhase.fled },
     rng,
     [{ success := true, rtype := ResultType.fleeSuccess,
        message := "Successfully fled from combat! Location changed." }])
  else
    (gs, cs, rng,
      [{ success := false, rtype := ResultType.fleeFail,
         message := "Flee attempt failed! Enemies block your escape." }])

/-- `CombatEngine.processMove(direction)`.  A missing direction falls into
the `else` (away) branch, as in the source's strict comparison. -/
def processMove (gs : GameState) (direction : Option MoveDirection) :
    GameState × List CombatResult :=
  let shift : Enemy → Enemy := fun e =>
    if direction = some MoveDirection.closer then
      match e.range with
      | some RangeTier.farRange => { e with range := some RangeTier.nearRange }
      | some RangeTier.nearRange => { e with range := some RangeTier.meleeRange }
      | _ => e
    else
      match e.range with
      | some RangeTier.meleeRange => { e with range := some RangeTier.nearRange }
      | some RangeTier.nearRange => { e with range := some RangeTier.farRange }
      | _ => e
  let word := if direction = some MoveDirection.closer then "closer to" else "away from"
  ({ gs with enemies := gs.enemies.map shift },
   [{ success := true, rtype := ResultType.move,
      message := s!"Repositioned {word} enemies" }])

/-- One enemy's action inside `processEnemyTurn`'s `forEach`, threading the
player's hit points and the random tape.  `defendActive` is the flag read
for every enemy of the round. -/
def enemyTurnGo (defendActive : Bool) (maxHp : ℚ) :
    List Enemy → ℚ → Rng → List Enemy × ℚ × Rng × List CombatResult
  | [], hp, rng => ([], hp, rng, [])
  | e :: rest, hp, rng =>
    if e.hp > 0 then
      if strHasSub (strToLower e.status) "stun" then
        let e' := { e with status := "Active" }
        let en := e.name
        let res : CombatResult :=
          { success := false, rtype := ResultType.enemyAttack, targetName := some en,
            message := s!"{en} is recovering from stun" }
        let t := enemyTurnGo defendActive maxHp rest hp rng
        (e' :: t.1, t.2.1, t.2.2.1, res :: t.2.2.2)
      else
        let damage : ℚ := if e.maxHp > 50 then 15 else 8
        let damage :=
          if defendActive then
            ((Int.floor (damage * (1 - GameBalance.defenseDamageReduction)) : ℤ) : ℚ)
          else damage
        let pv := rng.next
        let rv := pv.1
        let rng := pv.2
        let damage := ((Int.floor (damage * (0.8 + rv * 0.4)) : ℤ) : ℚ)
        let damage := max 1 damage
        let hp0 := max 0 (hp - damage)
        let en := e.name
        let res : CombatResult :=
          { success := true, rtype := ResultType.enemyAttack, amount := some damage,
            targetName := some en,
            message := s!"{en} attacks! Dealt {damage} damage (Player HP: {hp0}/{maxHp})" }
        let t := enemyTurnGo defendActive maxHp rest hp0 rng
        (e :: t.1, t.2.1, t.2.2.1, res :: t.2.2.2)
    else
      let t := enemyTurnGo defendActive maxHp rest hp rng
      (e :: t.1, t.2.1, t.2.2.1, t.2.2.2)

/-- `CombatEngine.processEnemyTurn()`. -/
def processEnemyTurn (gs : GameState) (cs : CombatState) (rng : Rng) :
    GameState × CombatState × Rng × List CombatResult :=
  let t := enemyTurnGo cs.defendActive gs.maxHp gs.enemies gs.hp rng
  ({ gs with enemies := t.1, hp := t.2.1,
             actionPoints := GameBalance.baseActionPoints },
   { cs with defendActive := false, round := cs.round + 1,
             phase := CombatPhase.playerTurn,
             playerActionPoints := GameBalance.baseActionPoints },
   t.2.2.1, t.2.2.2)

/-- `CombatEngine.checkCombatEnd()`. -/
def checkCombatEnd (gs : GameState) (cs : CombatState) : GameState × CombatState :=
  if gs.hp ≤ 0 then
    ({ gs with phase := GamePhase.exploration }, { cs with phase := CombatPhase.defeat })
  else if (gs.enemies.filter (fun e => decide (e.hp > 0))).isEmpty then
    ({ gs with phase := GamePhase.exploration, enemies := [] },
     { cs with phase := CombatPhase.victory })
  else (gs, cs)

/-- The action dispatch inside `processAction` (the `switch` statement). -/
def dispatchAction (gs : GameState) (cs : CombatState) (rng : Rng) (action : CombatAction) :
    GameState × CombatState × Rng × List CombatResult :=
  match action.type with
  | CombatActionType.attack =>
    processAttack gs cs rng (action.targetId.getD "")
  | CombatActionType.defend =>
    let t := processDefend cs
    (gs, t.1, rng, t.2)
  | CombatActionType.useItem =>
    let t := processUseItem gs (action.itemId.getD "")
    (t.1, cs, rng, t.2)
  | CombatActionType.flee => processFlee gs cs rng
  | CombatActionType.move =>
    let t := processMove gs action.direction
    (t.1, cs, rng, t.2)

/-- `CombatEngine.processAction(action)`. -/
def processAction (gs : GameState) (cs : CombatState) (rng : Rng) (action : CombatAction) :
    GameState × CombatState × Rng × List CombatResult :=
  if isActionValid gs cs action = false then
    (gs, cs, rng,
      [{ success := false, rtype := ResultType.damage,
         message := "Invalid action: Not enough AP or invalid target" }])
  else
    let t := dispatchAction gs cs rng action
    let gs := t.1
    let cs := t.2.1
    let rng := t.2.2.1
    let results := t.2.2.2
    -- deduct the action point unless the flee succeeded
    let skipDeduct : Bool :=
      decide (action.type = CombatActionType.flee) &&
        (match results.head? with
         | some r => decide (r.rtype = ResultType.fleeSuccess)
         | none => false)
    let step1 : GameState × CombatState :=
      if skipDeduct then (gs, cs)
      else
        let cs := { cs with playerActionPoints := cs.playerActionPoints - 1 }
        ({ gs with actionPoints := cs.playerActionPoints }, cs)
    let gs := step1.1
    let cs := step1.2
    -- auto-transition to the enemy turn at 0 AP
    let step2 : GameState × CombatState × Rng × List CombatResult :=
      if cs.playerActionPoints ≤ 0 then
        let cs := { cs with phase := CombatPhase.enemyTurn }
        let t2 := processEnemyTurn gs cs rng
        (t2.1, t2.2.1, t2.2.2.1, results ++ t2.2.2.2)
      else (gs, cs, rng, results)
    let gs := step2.1
    let cs := step2.2.1
    let rng := step2.2.2.1
    let results := step2.2.2.2
    let e := checkCombatEnd gs cs
    let gs := e.1
    let cs := { e.2 with log := e.2.log ++ results }
    (gs, cs, rng, results)

/-! ## World model (`lib/rotjsIntegration.ts`) -/

inductive TileType
  | floor
  | wall
  | door
  | grass
  | water
  | building
  | ruins
deriving DecidableEq

structure Tile where
  type : TileType
  explored : Bool
  visible : Bool
  resources : Option (List String) := none
  zombiesCleared : Option Bool := none
deriving DecidableEq

structure WorldMap where
  width : ℕ
  height : ℕ
  tiles : List (List Tile)
  seed : String
deriving DecidableEq

/-- Rewrite the list entry at one index, if it exists. -/
def setListAt {α : Type} : List α → ℕ → (α → α) → List α
  | [], _, _ => []
  | a :: as, 0, f => f a :: as
  | a :: as, n + 1, f => a :: setListAt as n f

/-- Map a function that also receives the element's index. -/
def mapIdxFrom {α : Type} (f : ℕ → α → α) : ℕ → List α → List α
  | _, [] => []
  | i, a :: as => f i a :: mapIdxFrom f (i + 1) as

/-- `tiles[y][x]` as an option (natural indices). -/
def gridGetN (tiles : List (List Tile)) (x y : ℕ) : Option Tile :=
  (tiles.get? y).bind (fun row => row.get? x)

/-- `tiles[y][x]` as an option (integer indices; a negative index is
`undefined`). -/
def gridGetZ (tiles : List (List Tile)) (x y : ℤ) : Option Tile :=
  if 0 ≤ x ∧ 0 ≤ y then gridGetN tiles x.toNat y.toNat else none

/-- `tiles[y][x] = f(tiles[y][x])` (natural indices; out of range is a
no-op). -/
def setGrid (tiles : List (List Tile)) (x y : ℕ) (f : Tile → Tile) : List (List Tile) :=
  setListAt tiles y (fun row => setListAt row x f)

/-- Integer-index variant of `setGrid`. -/
def setGridZ (tiles : List (List Tile)) (x y : ℤ) (f : Tile → Tile) : List (List Tile) :=
  if 0 ≤ x ∧ 0 ≤ y then setGrid tiles x.toNat y.toNat f else tiles

/-- The `lightPasses` closure shared by `calculateFOV` and
`hasLineOfSight`: out-of-bounds blocks, otherwise a tile passes light iff
it is not a wall. -/
def lightPasses (world : WorldMap) (x y : ℤ) : Bool :=
  if x < 0 ∨ y < 0 ∨ (world.width : ℤ) ≤ x ∨ (world.height : ℤ) ≤ y then false
  else
    match gridGetZ world.tiles x y with
    | some t => decide (t.type ≠ TileType.wall)
    | none => false

/-- The integer points of the discrete segment from `a` to `b`
(rounded linear interpolation), endpoints included. -/
def linePoints (a b : ℤ × ℤ) : List (ℤ × ℤ) :=
  let dx := b.1 - a.1
  let dy := b.2 - a.2
  let n := max dx.natAbs dy.natAbs
  if n = 0 then [a]
  else
    (List.range (n + 1)).map (fun t =>
      (a.1 + Int.floor ((dx * t : ℚ) / n + 1 / 2),
       a.2 + Int.floor ((dy * t : ℚ) / n + 1 / 2)))

/-- All interior points of the segment from `a` to `b` pass light. -/
def lineClearTo (lp : ℤ → ℤ → Bool) (a b : ℤ × ℤ) : Bool :=
  ((linePoints a b).dropLast.drop 1).all (fun p => lp p.1 p.2)

/-- Cells within Euclidean distance `radius` of `(x, y)`. -/
def cellsInRadius (x y : ℤ) (radius : ℕ) : List (ℤ × ℤ) :=
  ((List.range (2 * radius + 1)).flatMap (fun j =>
    (List.range (2 * radius + 1)).map (fun i =>
      (x + (i : ℤ) - (radius : ℤ), y + (j : ℤ) - (radius : ℤ))))).filter
    (fun p => decide ((p.1 - x) ^ 2 + (p.2 - y) ^ 2 ≤ ((radius : ℤ)) ^ 2))

/-- Modelled from the spec: `ROT.FOV.PreciseShadowcasting` is not
repository code.  Per the spec it is a shadow-casting FOV in which walls
block light; the model visits the origin plus every cell within the radius
whose connecting segment's interior passes light. -/
def fovVisited (lp : ℤ → ℤ → Bool) (x y : ℤ) (radius : ℕ) : List (ℤ × ℤ) :=
  (x, y) :: (cellsInRadius x y radius).filter
    (fun p => decide (p ≠ (x, y)) && lineClearTo lp (x, y) p)

/-- The per-tile marking of the `fov.compute` callback:
`tile.visible = true; tile.explored = true`. -/
def markTile (t : Tile) : Tile := { t with visible := true, explored := true }

/-- The `fov.compute` callback body: mark a visited coordinate visible and
explored when `world.tiles[vy] && world.tiles[vy][vx]` holds. -/
def markVisitedTile (world : WorldMap) (p : ℤ × ℤ) : WorldMap :=
  if (gridGetZ world.tiles p.1 p.2).isSome then
    let marked := setGridZ world.tiles p.1 p.2 markTile
    { world with tiles := marked }
  else world

/-- `calculateFOV(world, x, y, radius)`: returns the mutated world and the
visited set. -/
def calculateFOV (world : WorldMap) (x y : ℤ) (radius : ℕ) : WorldMap × List (ℤ × ℤ) :=
  let visited := fovVisited (lightPasses world) x y radius
  (visited.foldl markVisitedTile world, visited)

/-- The reset loops of `updateVisibility`: clear `visible` on every tile
with `y < world.height` and `x < world.width`. -/
def clearVisibleTiles (world : WorldMap) : WorldMap :=
  { world with tiles := mapIdxFrom (fun y row =>
      if y < world.height then
        mapIdxFrom (fun x t => if x < world.width then { t with visible := false } else t) 0 row
      else row) 0 world.tiles }

/-- `updateVisibility(world, x, y, radius)`. -/
def updateVisibility (world : WorldMap) (x y : ℤ) (radius : ℕ) : WorldMap :=
  (calculateFOV (clearVisibleTiles world) x y radius).1

/-- The eight grid neighbours (ROT.js default topology). -/
def neighbors8 (p : ℤ × ℤ) : List (ℤ × ℤ) :=
  [(p.1 - 1, p.2 - 1), (p.1, p.2 - 1), (p.1 + 1, p.2 - 1),
   (p.1 - 1, p.2), (p.1 + 1, p.2),
   (p.1 - 1, p.2 + 1), (p.1, p.2 + 1), (p.1 + 1, p.2 + 1)]

/-- Modelled from the spec: `ROT.Path.AStar` is not repository code.  Per
the spec's path contract it computes a grid shortest path through passable
cells and reports nothing when the goal is unreachable; this model is a
fuelled breadth-first search returning the path from start to goal. -/
def bfsGo (lp : ℤ → ℤ → Bool) (goal : ℤ × ℤ) :
    ℕ → List ((ℤ × ℤ) × List (ℤ × ℤ)) → List (ℤ × ℤ) → Option (List (ℤ × ℤ))
  | 0, _, _ => none
  | _ + 1, [], _ => none
  | fuel + 1, qe :: rest, visited =>
    let c := qe.1
    let path := qe.2
    if c = goal then some (path ++ [c])
    else
      let ns := (neighbors8 c).filter (fun n => lp n.1 n.2 && !(visited.contains n))
      bfsGo lp goal fuel (rest ++ ns.map (fun n => (n, path ++ [c]))) (visited ++ ns)

/-- Path search used by `hasLineOfSight` (`new ROT.Path.AStar(end, lightPasses)`
followed by `compute(start, callback)`). -/
def astarCompute (lp : ℤ → ℤ → Bool) (start goal : ℤ × ℤ) (fuel : ℕ) :
    Option (List (ℤ × ℤ)) :=
  bfsGo lp goal fuel [(start, [])] [start]

/-- `hasLineOfSight(world, start, end)`: despite its name, the source
builds an A* pathfinder over `lightPasses` and clears the flag only when a
cell of the found path fails `lightPasses`; when no path is found the
callback never runs and the function returns `true`. -/
def hasLineOfSight (world : WorldMap) (start endp : ℤ × ℤ) : Bool :=
  let fuel := (world.width * world.height + 2) * 9
  match astarCompute (lightPasses world) start endp fuel with
  | none => true
  | some p => p.all (fun q => lightPasses world q.1 q.2)

/-- Written from the spec's words for `hasLineOfSight` ("true only if no
blocking tile lies on the traced segment"): does a wall tile lie on the
straight segment between `a` and `b`? -/
def segmentHasBlockingTile (world : WorldMap) (a b : ℤ × ℤ) : Bool :=
  (linePoints a b).any (fun p =>
    match gridGetZ world.tiles p.1 p.2 with
    | some t => decide (t.type = TileType.wall)
    | none => false)

/-! ## World generation (`lib/rotjsIntegration.ts`) -/

/-- Modelled from the spec: the global `ROT.RNG` state is not repository
code; the spec requires only a deterministic seeded RNG, modelled as a
linear congruential generator state. -/
abbrev RotRNG := ℕ

/-- `ROT.RNG.setSeed(n)`: overwrite the global RNG state. -/
def rotSetSeed (seed : ℕ) : RotRNG := seed % 2147483648

/-- Advance the modelled RNG state. -/
def rotNext (s : RotRNG) : RotRNG := (s * 1103515245 + 12345) % 2147483648

/-- `ROT.RNG.getUniformInt(lo, hi)` on the modelled state. -/
def rotGetUniformInt (s : RotRNG) (lo hi : ℕ) : ℕ × RotRNG :=
  let s' := rotNext s
  if hi ≤ lo then (lo, s') else (lo + s' % (hi + 1 - lo), s')

/-- `parseFloat(actualSeed) || 12345`, modelled on decimal seeds: a
non-numeric or zero seed falls back to `12345`. -/
def parseSeedNum (s : String) : ℕ :=
  match s.toNat? with
  | some n => if n = 0 then 12345 else n
  | none => 12345

structure Room where
  x1 : ℕ
  y1 : ℕ
  x2 : ℕ
  y2 : ℕ
  doorCells : List (ℕ × ℕ)
deriving DecidableEq

/-- `room.getCenter()`. -/
def roomCenter (r : Room) : ℕ × ℕ := ((r.x1 + r.x2) / 2, (r.y1 + r.y2) / 2)

/-- Every cell of a `w × h` grid. -/
def allCells (w h : ℕ) : List (ℕ × ℕ) :=
  (List.range h).flatMap (fun y => (List.range w).map (fun x => (x, y)))

/-- Modelled from the spec: `ROT.Map.Digger` is not repository code.  Per
the spec it deterministically carves rooms and corridors from the seeded
RNG; the model digs two RNG-placed rooms joined by a corridor and reports
each room with a door cell. -/
def diggerCreate (w h : ℕ) (s : RotRNG) : List (ℕ × ℕ) × List Room × RotRNG :=
  let p1 := rotGetUniformInt s 5 9
  let p2 := rotGetUniformInt p1.2 5 9
  let p3 := rotGetUniformInt p2.2 1 (w - 2)
  let p4 := rotGetUniformInt p3.2 1 (h - 2)
  let p5 := rotGetUniformInt p4.2 1 (w - 2)
  let p6 := rotGetUniformInt p5.2 1 (h - 2)
  let room1 : Room :=
    ⟨p3.1, p4.1, min (p3.1 + p1.1) (w - 1), min (p4.1 + p2.1) (h - 1), [(p3.1, p4.1)]⟩
  let room2 : Room :=
    ⟨p5.1, p6.1, min (p5.1 + p1.1) (w - 1), min (p6.1 + p2.1) (h - 1), [(p5.1, p6.1)]⟩
  let inRoom := fun (r : Room) (p : ℕ × ℕ) =>
    decide (r.x1 ≤ p.1 ∧ p.1 ≤ r.x2 ∧ r.y1 ≤ p.2 ∧ p.2 ≤ r.y2)
  let corridor := fun (p : ℕ × ℕ) =>
    decide (p.2 = p4.1 ∧ min p3.1 p5.1 ≤ p.1 ∧ p.1 ≤ max p3.1 p5.1)
  ((allCells w h).filter (fun p => inRoom room1 p || inRoom room2 p || corridor p),
   [room1, room2], p6.2)

def resourceTypesList : List String := ["Scrap Metal", "Canned Food", "Bandages", "Ammo"]

/-- Map every grid cell with access to its coordinates. -/
def mapGrid (tiles : List (List Tile)) (f : ℕ → ℕ → Tile → Tile) : List (List Tile) :=
  mapIdxFrom (fun y row => mapIdxFrom (fun x t => f x y t) 0 row) 0 tiles

/-- The tile-initialisation loops of the generators. -/
def initTiles (w h : ℕ) (t : Tile) : List (List Tile) :=
  (List.range h).map (fun _ => (List.range w).map (fun _ => t))

/-- `generateProceduralWorld(width, height, seed)`.  `now` models
`Date.now()` (used only when no seed is given) and `g` the incoming global
`ROT.RNG` state, which `setSeed` overwrites. -/
def generateProceduralWorld (w h : ℕ) (seed : Option String) (now : ℕ) (g : RotRNG) :
    WorldMap × RotRNG :=
  let actualSeed :=
    match seed with
    | some s => if s = "" then toString now else s
    | none => toString now
  let g := rotSetSeed (parseSeedNum actualSeed)
  let tiles := initTiles w h { type := TileType.wall, explored := false, visible := false }
  let d := diggerCreate w h g
  let dug := d.1
  let rooms := d.2.1
  let g := d.2.2
  -- digger.create callback: floor where dug, wall elsewhere
  let tiles := mapGrid tiles (fun x y t =>
    if dug.contains (x, y) then { t with type := TileType.floor }
    else { t with type := TileType.wall })
  -- doors at room connections
  let tiles := rooms.foldl (fun ts r =>
    r.doorCells.foldl (fun ts dc =>
      setGrid ts dc.1 dc.2 (fun t => { t with type := TileType.door })) ts) tiles
  -- resource spawns at room centers
  let tg := rooms.foldl (fun (acc : List (List Tile) × RotRNG) r =>
    let c := roomCenter r
    if (gridGetN acc.1 c.1 c.2).isSome then
      let pi := rotGetUniformInt acc.2 0 (resourceTypesList.length - 1)
      (setGrid acc.1 c.1 c.2
        (fun t => { t with resources := some [resourceTypesList.getD pi.1 ""] }), pi.2)
    else acc) (tiles, g)
  ({ width := w, height := h, tiles := tg.1, seed := actualSeed }, tg.2)

/-- Modelled from the spec: `ROT.Map.Cellular` is not repository code.
The cell values produced by `randomize(0.5)` plus four `create` iterations
are modelled as a deterministic function of the RNG state and the cell. -/
def cellularValue (s : RotRNG) (p : ℕ × ℕ) : Bool :=
  decide (rotNext (s + 31 * p.1 + 977 * p.2) % 2 = 1)

/-- `generateCellularWorld(width, height, seed)`; parameters as in
`generateProceduralWorld`. -/
def generateCellularWorld (w h : ℕ) (seed : Option String) (now : ℕ) (g : RotRNG) :
    WorldMap × RotRNG :=
  let actualSeed :=
    match seed with
    | some s => if s = "" then toString now else s
    | none => toString now
  let g := rotSetSeed (parseSeedNum actualSeed)
  let tiles := initTiles w h { type := TileType.grass, explored := false, visible := false }
  let sc := g
  let g := rotNext g
  -- cellular.create callback: grass where value 1, water elsewhere
  let tiles := mapGrid tiles (fun x y t =>
    if cellularValue sc (x, y) then { t with type := TileType.grass }
    else { t with type := TileType.water })
  -- ten random building placements
  let tg := (List.range 10).foldl (fun (acc : List (List Tile) × RotRNG) _ =>
    let px := rotGetUniformInt acc.2 1 (w - 2)
    let py := rotGetUniformInt px.2 1 (h - 2)
    match gridGetN acc.1 px.1 py.1 with
    | some t =>
      if t.type = TileType.grass then
        (setGrid acc.1 px.1 py.1
          (fun t => { t with type := TileType.building, resources := some ["Medical Supplies", "Tools", "Food"] }), py.2)
      else (acc.1, py.2)
    | none => (acc.1, py.2)) (tiles, g)
  ({ width := w, height := h, tiles := tg.1, seed := actualSeed }, tg.2)

/-! ## Peer protocol host handler (`components/GameScreen.tsx`, `types.ts`) -/

structure MessageRec where
  id : String
  role : String
  text : String
  timestamp : ℤ
deriving DecidableEq

/-- The `PeerData` union of `types.ts`, extended with the `STATE_REQUEST`
variant of the `GameMessage` union in `lib/peerGameProtocol.ts` (the kind
of message the claim is about; the host's handler receives raw data of any
of these kinds). -/
inductive PeerData
  | stateSync (gameState : GameState) (messages : List MessageRec)
  | actionMsg (text : String)
  | handshakeMsg (characterName : String)
  | stateRequest (reason : String)
deriving DecidableEq

/-- The host-side UI state toward the peer: the two React states the
broadcast effect watches. -/
structure HostUi where
  gameState : GameState
  messages : List MessageRec
deriving DecidableEq

/-- The host's `peerService.onData` handler installed in `GameScreen`'s
init effect: only `data.type === 'ACTION'` is handled (relayed to
`handleSend`, abstracted as `engine`); every other message — including
`STATE_REQUEST` — leaves the host state untouched. -/
def hostOnData (engine : String → HostUi → HostUi) (st : HostUi) : PeerData → HostUi
  | PeerData.actionMsg text => engine text st
  | _ => st

/-- The host broadcast effect: when `gameState`/`messages` changed, the
host sends one `STATE_SYNC`; otherwise the effect does not fire. -/
def hostSyncReplies (stBefore stAfter : HostUi) : List PeerData :=
  if stAfter = stBefore then []
  else [PeerData.stateSync stAfter.gameState stAfter.messages]

/-- All `STATE_SYNC` traffic the host emits in response to one incoming
message. -/
def hostRepliesTo (engine : String → HostUi → HostUi) (st : HostUi) (msg : PeerData) :
    List PeerData :=
  hostSyncReplies st (hostOnData engine st msg)

/-! ## Specification-side formulas (written from the spec's words, for
refinement comparisons) -/

/-- The spec's damage formula for player attacks:
`floor(max(1, base × (1 ± 0.2 variance) − targetDefense) × (1.5 if critical else 1))`,
with `v ∈ [-1, 1]` the signed variance draw. -/
def specDamageFormula (base defense : ℚ) (crit : Bool) (v : ℚ) : ℤ :=
  Int.floor (max 1 (base * (1 + v * (0.2 : ℚ)) - defense) * (if crit then (1.5 : ℚ) else 1))

/-- The claim's enemy-damage formula:
`floor(max(1, base × uniform(0.8, 1.2)) × (0.5 if the player defended else 1))`. -/
def specClaimedEnemyDamage (base : ℚ) (defended : Bool) (u : ℚ) : ℤ :=
  Int.floor (max 1 (base * u) * (if defended then (0.5 : ℚ) else 1))

/-- The enemy damage the code actually deals (amended formula): the
defend halving is applied first with its own floor, the variance floor
second, and the clamp to at least 1 last; `r` is the raw random draw. -/
def amendedEnemyDamage (big defended : Bool) (r : ℚ) : ℚ :=
  let base : ℚ := if big then 15 else 8
  let base := if defended then ((Int.floor (base * (0.5 : ℚ)) : ℤ) : ℚ) else base
  max 1 ((Int.floor (base * (0.8 + r * 0.4)) : ℤ) : ℚ)

/-- The amended claim's whole enemy turn, written from the amended
formula: in list order, every enemy with hp > 0 that is not stunned
consumes one uniform draw from the tape and deals
`amendedEnemyDamage` to the running player hp (clamped at 0), all under
the round's shared defend flag; a stunned enemy instead has its status
cleared to Active and deals nothing; a dead enemy is skipped.  Returns
the updated enemies, the final hp, the remaining tape, and the damage
amount of each processed enemy (`none` for a stun recovery). -/
def amendedEnemyTurn (defended : Bool) :
    List Enemy → ℚ → List ℚ → List Enemy × ℚ × List ℚ × List (Option ℚ)
  | [], hp, tape => ([], hp, tape, [])
  | e :: rest, hp, tape =>
    if e.hp > 0 then
      if strHasSub (strToLower e.status) "stun" then
        let t := amendedEnemyTurn defended rest hp tape
        ({ e with status := "Active" } :: t.1, t.2.1, t.2.2.1, none :: t.2.2.2)
      else
        let r := tape.headD 0
        let d := amendedEnemyDamage (decide (e.maxHp > 50)) defended r
        let hp2 := max 0 (hp - d)
        let t := amendedEnemyTurn defended rest hp2 tape.tail
        (e :: t.1, t.2.1, t.2.2.1, some d :: t.2.2.2)
    else
      let t := amendedEnemyTurn defended rest hp tape
      (e :: t.1, t.2.1, t.2.2.1, t.2.2.2)

/-! ## Invariant predicates for the visibility claims -/

/-- A well-formed world: the tile matrix has exactly the declared
dimensions. -/
def WF (w : WorldMap) : Prop :=
  w.tiles.length = w.height ∧ ∀ row ∈ w.tiles, row.length = w.width

/-- Every visible tile is explored. -/
def TileInvP (w : WorldMap) : Prop :=
  ∀ i j t, gridGetN w.tiles i j = some t → t.visible = true → t.explored = true

/-- No tile's `explored` flag is reset between two worlds of the same
shape. -/
def exploredMonoP (w w2 : WorldMap) : Prop :=
  ∀ i j t t2, gridGetN w.tiles i j = some t → gridGetN w2.tiles i j = some t2 →
    t.explored = true → t2.explored = true

/-! ## Concrete fixtures for closed evaluations and witnesses -/

/-- A small well-formed combat game state: full health, one Walker enemy,
a melee weapon, base skills. -/
def fixtureState : GameState :=
  { hp := 100, maxHp := 100, infectionLevel := 0, supplies := 3, day := 1,
    time := "Morning", location := "Safehouse (Basement)",
    inventory := ["Crowbar"], equippedWeapon := some "Crowbar",
    skills := [("Melee", 1)], phase := GamePhase.combat,
    actionPoints := 3, maxActionPoints := 3,
    enemies := [{ id := "z1", name := "Walker", hp := 30, maxHp := 30, status := "Active" }],
    lastActionSummary := "" }

/-- The combat state the engine constructor derives from `fixtureState`. -/
def fixtureCombat : CombatState := initCombatState fixtureState

/-- Fixture with a Tank enemy (maxHp 80 > 50). -/
def fixtureTankState : GameState :=
  { fixtureState with
    enemies := [{ id := "z1", name := "Tank", hp := 80, maxHp := 80, status := "Active" }] }

/-- Fixture at melee skill level 8 (Executioner tier). -/
def fixtureMelee8State : GameState := { fixtureState with skills := [("Melee", 8)] }

/-- Fixture with two enemies, a Tank followed by a Walker. -/
def fixtureTwoEnemyState : GameState :=
  { fixtureState with
    enemies :=
      [{ id := "z1", name := "Tank", hp := 80, maxHp := 80, status := "Active" },
       { id := "z2", name := "Walker", hp := 30, maxHp := 30, status := "Active" }] }

/-- Fixture with a non-healing item in the inventory. -/
def fixtureRopeState : GameState := { fixtureState with inventory := ["Crowbar", "Rope"] }

/-- A 3×3 all-floor world with a single wall at the center `(1, 1)`:
the straight segment from `(0, 1)` to `(2, 1)` crosses the wall, but a
detour over the top row connects the endpoints. -/
def losWorld : WorldMap :=
  { width := 3, height := 3,
    tiles :=
      [[{ type := TileType.floor, explored := false, visible := false },
        { type := TileType.floor, explored := false, visible := false },
        { type := TileType.floor, explored := false, visible := false }],
       [{ type := TileType.floor, explored := false, visible := false },
        { type := TileType.wall, explored := false, visible := false },
        { type := TileType.floor, explored := false, visible := false }],
       [{ type := TileType.floor, explored := false, visible := false },
        { type := TileType.floor, explored := false, visible := false },
        { type := TileType.floor, explored := false, visible := false }]],
    seed := "7" }

/-- A 2×1 world whose second tile is `visible` but not `explored`:
`calculateFOV` does not clear stale `visible` flags. -/
def staleVisibleWorld : WorldMap :=
  { width := 2, height := 1,
    tiles :=
      [[{ type := TileType.floor, explored := false, visible := false },
        { type := TileType.floor, explored := false, visible := true }]],
    seed := "1" }

/-- A 1×1 floor world used for witnesses. -/
def tinyWorld : WorldMap :=
  { width := 1, height := 1,
    tiles := [[{ type := TileType.floor, explored := false, visible := false }]],
    seed := "1" }

/-- Outcome of a flee with a success roll (`Math.random() = 0 < 0.6`)
from the fixture state. -/
def fleeOutcome : GameState × CombatState × Rng × List CombatResult :=
  processAction fixtureState fixtureCombat ⟨[0]⟩ { type := CombatActionType.flee }

/-- Outcome of a flee with a failure roll (`Math.random() = 0.9 ≥ 0.6`). -/
def fleeFailOutcome : GameState × CombatState × Rng × List CombatResult :=
  processAction fixtureState fixtureCombat ⟨[0.9]⟩ { type := CombatActionType.flee }

/-- Enemy turn against a defending player with one Tank enemy and the
variance draw `0` (the uniform factor's lower end `0.8`). -/
def enemyTurnTankOutcome : GameState × CombatState × Rng × List CombatResult :=
  processEnemyTurn fixtureTankState { fixtureCombat with defendActive := true } ⟨[0]⟩

/-- An attack from melee level 8 whose hit, critical, and execution rolls
all succeed (tape `[0, 0, 0]`). -/
def executionOutcome : GameState × CombatState × Rng × List CombatResult :=
  processAttack fixtureMelee8State fixtureCombat ⟨[0, 0, 0]⟩ "z1"

/-! # Theorems -/

/-! ## Shared helper lemmas -/

theorem skillGet_skillSet_self (s : List (String × ℤ)) (n : String) (v : ℤ) :
    skillGet (skillSet s n v) n = if v = 0 then 1 else v := by
  induction s with
  | nil => simp [skillSet, skillGet, List.lookup]
  | cons head tail ih =>
    obtain ⟨k, w⟩ := head
    by_cases hk : k = n
    · subst hk
      simp [skillSet, skillGet, List.lookup]
    · have hbeq : (n == k) = false := beq_eq_false_iff_ne.mpr (fun h => hk h.symm)
      simp only [skillSet, if_neg hk, skillGet, List.lookup, hbeq]
      exact ih

/-- C9 helper statement is inline; no further helpers needed here. -/
theorem hostOnData_stateRequest (engine : String → HostUi → HostUi) (st : HostUi)
    (reason : String) : hostOnData engine st (PeerData.stateRequest reason) = st := rfl

/-! ## C9 -/

/-- C9: a `STATE_REQUEST` from the client elicits no `STATE_SYNC` from the
host at all — the host's `onData` handler matches only `'ACTION'`, so the
state does not change and the broadcast effect never fires.  This refutes
the claim that exactly one `STATE_SYNC` is sent in response. -/
theorem stateRequest_elicits_no_sync (engine : String → HostUi → HostUi) (st : HostUi)
    (reason : String) :
    hostRepliesTo engine st (PeerData.stateRequest reason) = [] := by
  simp [hostRepliesTo, hostOnData, hostSyncReplies]

/-! ## C6 -/

/-- C6: player attack damage is exactly the spec's formula
`floor(max(1, base × (1 ± 0.2 variance) − targetDefense) × (1.5 if critical else 1))`
(with `v = 2r − 1` the signed variance draw), and with the variance fixed
to 0 a non-critical, non-jam attack with base damage 10 against defense 2
deals exactly 8 — both for `calculateDamage` itself and in-engine against
a Walker (maxHp ≤ 50, so defense 2). -/
theorem attack_damage_formula :
    (∀ base defense crit r,
      calculateDamage base defense crit r = specDamageFormula base defense crit (2 * r - 1))
    ∧ calculateDamage 10 2 false (1 / 2) = 8
    ∧ (processAttack fixtureState fixtureCombat ⟨[0, 1 / 2, 1 / 2]⟩ "z1").2.2.2.map
        (fun c => c.amount) = [some 8]
    ∧ (processAttack fixtureState fixtureCombat ⟨[0, 1 / 2, 1 / 2]⟩ "z1").1.enemies.map
        (fun e => e.hp) = [22] := by
  refine ⟨?_, ?_, ?_, ?_⟩
  · intro base defense crit r
    have hv : r * 2 - 1 = 2 * r - 1 := by ring
    cases crit <;>
      simp [calculateDamage, specDamageFormula, GameBalance.damageVariance,
        GameBalance.criticalMultiplier, hv, mul_one]
  · norm_num [calculateDamage, GameBalance.damageVariance, GameBalance.criticalMultiplier]
  · norm_num +decide [processAttack, processAttackFromHitRoll, processAttackDamage,
      findEnemy, effectiveWeapon, isFirearm, strToLower, strHasSub, skillGet,
      fixtureState, fixtureCombat, initCombatState, calculateSkillSuccessChance,
      rollCriticalHit, calculateDamage, Rng.next, updateEnemyFirst,
      GameBalance.baseDamage, GameBalance.damageVariance, GameBalance.criticalHitChance,
      GameBalance.criticalMultiplier, GameBalance.baseSuccessChance,
      GameBalance.bonusPerLevel, GameBalance.maxSkillLevel, GameBalance.meleeCritBonus,
      GameBalance.meleeStunChance, GameBalance.executionChance,
      GameBalance.maxActionPoints, GameBalance.apRefundL8to10,
      GameBalance.skillGrowthOnCritical, List.lookup]
  · norm_num +decide [processAttack, processAttackFromHitRoll, processAttackDamage,
      findEnemy, effectiveWeapon, isFirearm, strToLower, strHasSub, skillGet,
      fixtureState, fixtureCombat, initCombatState, calculateSkillSuccessChance,
      rollCriticalHit, calculateDamage, Rng.next, updateEnemyFirst,
      GameBalance.baseDamage, GameBalance.damageVariance, GameBalance.criticalHitChance,
      GameBalance.criticalMultiplier, GameBalance.baseSuccessChance,
      GameBalance.bonusPerLevel, GameBalance.maxSkillLevel, GameBalance.meleeCritBonus,
      GameBalance.meleeStunChance, GameBalance.executionChance,
      GameBalance.maxActionPoints, GameBalance.apRefundL8to10,
      GameBalance.skillGrowthOnCritical, List.lookup]

/-! ## C3 -/

/-- C3 (code bug): a successful flee does clear the enemies, set the game
phase to exploration, and deduct no AP — but the terminal combat phase the
call leaves behind is `victory`, not `fled`: `checkCombatEnd` runs after
the flee, sees the cleared enemy list, and overwrites the phase.  A failed
flee deducts exactly 1 AP. -/
theorem flee_success_overwritten_to_victory :
    fleeOutcome.2.1.phase = CombatPhase.victory
      ∧ fleeOutcome.1.phase = GamePhase.exploration
      ∧ fleeOutcome.1.enemies = []
      ∧ fleeOutcome.2.1.playerActionPoints = 3
      ∧ fleeOutcome.2.2.2.map (fun c => c.rtype) = [ResultType.fleeSuccess]
      ∧ fleeFailOutcome.2.1.playerActionPoints = 2
      ∧ fleeFailOutcome.2.1.phase = CombatPhase.playerTurn
      ∧ fleeFailOutcome.2.2.2.map (fun c => c.rtype) = [ResultType.fleeFail] := by
  refine ⟨?_, ?_, ?_, ?_, ?_, ?_, ?_, ?_⟩ <;>
    norm_num +decide [fleeOutcome, fleeFailOutcome, processAction, isActionValid,
      fixtureState, fixtureCombat, initCombatState, dispatchAction, processFlee,
      Rng.next, GameBalance.fleeBaseChance, checkCombatEnd, processEnemyTurn,
      enemyTurnGo, GameBalance.baseActionPoints]

/-! ## C2 -/

/-- C2 (code bug): on the 3×3 world whose center is a wall, the straight
segment from `(0,1)` to `(2,1)` crosses the wall, yet `hasLineOfSight`
returns `true` because the A* search it mistakenly uses finds the detour
over the top row. -/
theorem lineOfSight_true_despite_wall :
    hasLineOfSight losWorld (0, 1) (2, 1) = true
      ∧ segmentHasBlockingTile losWorld (0, 1) (2, 1) = true
      ∧ gridGetZ losWorld.tiles 1 1 = some
          { type := TileType.wall, explored := false, visible := false } := by
  refine ⟨by decide, ?_, by decide⟩
  have hl : linePoints (0, 1) (2, 1) = [(0, 1), (1, 1), (2, 1)] := by
    norm_num [linePoints, List.range_succ]
  simp only [segmentHasBlockingTile, hl]
  decide

/-! ## C5 counterexample -/

/-- C5 (counterexample): with a Tank (maxHp 80 > 50, so base 15), a
defending player, and the variance draw 0 (uniform factor 0.8), the code
deals 5 damage (100 → 95), while the claim's formula
`floor(max(1, 15 × 0.8) × 0.5)` yields 6. -/
theorem enemy_damage_defended_counterexample :
    enemyTurnTankOutcome.1.hp = 95
      ∧ enemyTurnTankOutcome.2.2.2.map (fun c => c.amount) = [some 5]
      ∧ specClaimedEnemyDamage 15 true (0.8 + 0 * 0.4) = 6
      ∧ ¬ enemyTurnTankOutcome.1.hp =
          fixtureTankState.hp - ((specClaimedEnemyDamage 15 true (0.8 + 0 * 0.4) : ℤ) : ℚ) := by
  refine ⟨?_, ?_, ?_, ?_⟩ <;>
    norm_num +decide [enemyTurnTankOutcome, processEnemyTurn, enemyTurnGo,
      fixtureTankState, fixtureState, fixtureCombat, initCombatState, strToLower,
      strHasSub, Rng.next, GameBalance.defenseDamageReduction,
      GameBalance.baseActionPoints, specClaimedEnemyDamage]

/-! ## C4 counterexample -/

/-- C4 (counterexample): an attack from melee level 8 whose critical roll
succeeds and which results in an execution leaves the Melee skill at 8 —
the execution branch returns before the skill-increase step. -/
theorem execution_skips_skill_growth :
    executionOutcome.1.skills = [("Melee", 8)]
      ∧ skillGet executionOutcome.1.skills "Melee" = 8
      ∧ ¬ skillGet executionOutcome.1.skills "Melee" = 8 + 1
      ∧ executionOutcome.2.2.2.map (fun c => c.rtype) = [ResultType.execution]
      ∧ executionOutcome.1.enemies.map (fun e => e.hp) = [0] := by
  refine ⟨?_, ?_, ?_, ?_, ?_⟩ <;>
    norm_num +decide [executionOutcome, processAttack, processAttackFromHitRoll,
      processAttackDamage, findEnemy, effectiveWeapon, isFirearm, strToLower,
      strHasSub, skillGet, fixtureMelee8State, fixtureState, fixtureCombat,
      initCombatState, calculateSkillSuccessChance, rollCriticalHit, Rng.next,
      updateEnemyFirst, GameBalance.baseSuccessChance, GameBalance.bonusPerLevel,
      GameBalance.maxSkillLevel, GameBalance.criticalHitChance,
      GameBalance.meleeCritBonus, GameBalance.headshotBonus,
      GameBalance.executionChance, GameBalance.maxActionPoints,
      GameBalance.apRefundL8to10, List.lookup]

/-! ## C4 amended -/

theorem processAttackDamage_skills (gs : GameState) (cs : CombatState) (rng : Rng)
    (target : Enemy) (isF : Bool) (L : ℤ) (crit : Bool) :
    (processAttackDamage gs cs rng target isF L crit).1.skills
      = if crit = true ∧ L < GameBalance.maxSkillLevel
        then skillSet gs.skills (if isF = true then "Firearms" else "Melee")
               (L + GameBalance.skillGrowthOnCritical)
        else gs.skills := by
  simp only [processAttackDamage]
  split_ifs <;> simp_all

/-- C4 (amended): for every attack whose critical roll succeeds and whose
hit roll lands, the relevant skill (Melee or Firearms) grows by exactly 1
when below level 10 and stays at 10 at the cap — at every tier: melee
levels 1-7, melee levels 8-10 when the execution roll fails, firearms
levels 1-7 past the jam check, and firearms levels 8-10; a melee critical
whose execution roll succeeds leaves the skill unchanged, because the
execution branch returns before the skill-increase step. -/
theorem crit_growth_amended :
    (∀ (gs : GameState) (cs : CombatState) (tid : String) (e : Enemy) (L : ℤ)
        (r1 r2 : ℚ) (rest : List ℚ),
      findEnemy gs.enemies tid = some e →
      isFirearm (some (effectiveWeapon gs)) = false →
      skillGet gs.skills "Melee" = L →
      1 ≤ L →
      r1 ≤ calculateSkillSuccessChance L →
      rollCriticalHit L SkillType.melee r2 = true →
      ((L ≤ 7 →
          skillGet (processAttack gs cs ⟨r1 :: r2 :: rest⟩ tid).1.skills "Melee" = L + 1)
        ∧ (∀ r3 rest2, rest = r3 :: rest2 → 8 ≤ L →
            ((GameBalance.executionChance ≤ r3 →
                skillGet (processAttack gs cs ⟨r1 :: r2 :: rest⟩ tid).1.skills "Melee"
                  = if L < 10 then L + 1 else L)
              ∧ (r3 < GameBalance.executionChance →
                skillGet (processAttack gs cs ⟨r1 :: r2 :: rest⟩ tid).1.skills "Melee"
                  = L)))))
    ∧ (∀ (gs : GameState) (cs : CombatState) (tid : String) (e : Enemy) (L : ℤ)
        (r0 r1 r2 : ℚ) (rest : List ℚ),
      findEnemy gs.enemies tid = some e →
      isFirearm (some (effectiveWeapon gs)) = true →
      skillGet gs.skills "Firearms" = L →
      1 ≤ L →
      r1 ≤ calculateSkillSuccessChance L →
      rollCriticalHit L SkillType.firearms r2 = true →
      ((L ≤ 7 →
          (if L ≤ 3 then GameBalance.jamChanceL1to3 else GameBalance.jamChanceL4to7) ≤ r0 →
          skillGet (processAttack gs cs ⟨r0 :: r1 :: r2 :: rest⟩ tid).1.skills "Firearms"
            = L + 1)
        ∧ (8 ≤ L →
          skillGet (processAttack gs cs ⟨r1 :: r2 :: rest⟩ tid).1.skills "Firearms"
            = if L < 10 then L + 1 else L))) := by
  constructor
  · intro gs cs tid e L r1 r2 rest hfind hfire hskill hL1 hhit hcrit
    have hnotmiss : ¬ r1 > calculateSkillSuccessChance L := not_lt.mpr hhit
    have hne1 : ¬ (L + 1 = 0) := by omega
    constructor
    · intro h7
      have h8 : ¬ 8 ≤ L := by omega
      have hL10 : L < GameBalance.maxSkillLevel := by
        simp only [GameBalance.maxSkillLevel]; omega
      simp only [processAttack, hfind, hfire, processAttackFromHitRoll, Rng.next, hskill,
        Bool.false_eq_true, false_and, if_false, if_neg hnotmiss, hcrit, and_true,
        true_and, if_true, h8]
      simp [processAttackDamage_skills, hL10, skillGet_skillSet_self, hne1,
        GameBalance.skillGrowthOnCritical]
    · intro r3 rest2 hrest h8
      subst hrest
      constructor
      · intro hexec
        have hne : ¬ r3 < GameBalance.executionChance := not_lt.mpr hexec
        simp only [processAttack, hfind, hfire, processAttackFromHitRoll, Rng.next, hskill,
          Bool.false_eq_true, false_and, if_false, if_neg hnotmiss, hcrit, and_true,
          true_and, if_true, h8, if_neg hne]
        by_cases hL10 : L < 10
        · have hL10m : L < GameBalance.maxSkillLevel := by
            simp only [GameBalance.maxSkillLevel]; omega
          simp [processAttackDamage_skills, hL10, hL10m, skillGet_skillSet_self, hne1,
            GameBalance.skillGrowthOnCritical]
        · have hL10m : ¬ L < GameBalance.maxSkillLevel := by
            simp only [GameBalance.maxSkillLevel]; omega
          simp [processAttackDamage_skills, hL10, hL10m, hskill]
      · intro hexeq
        simp only [processAttack, hfind, hfire, processAttackFromHitRoll, Rng.next, hskill,
          Bool.false_eq_true, false_and, if_false, if_neg hnotmiss, hcrit, and_true,
          true_and, if_true, h8, if_pos hexeq]
  · intro gs cs tid e L r0 r1 r2 rest hfind hfire hskill hL1 hhit hcrit
    have hnotmiss : ¬ r1 > calculateSkillSuccessChance L := not_lt.mpr hhit
    have hne1 : ¬ (L + 1 = 0) := by omega
    constructor
    · intro h7 hjam
      have hnj : ¬ r0 < (if L ≤ 3 then GameBalance.jamChanceL1to3
          else GameBalance.jamChanceL4to7) := not_lt.mpr hjam
      have hL10 : L < GameBalance.maxSkillLevel := by
        simp only [GameBalance.maxSkillLevel]; omega
      simp only [processAttack, hfind, hfire, processAttackFromHitRoll, Rng.next, hskill,
        Bool.true_eq_false, false_and, if_false, if_neg hnotmiss, hcrit, and_true,
        true_and, if_true, h7, if_pos h7, if_neg hnj]
      simp [processAttackDamage_skills, hL10, skillGet_skillSet_self, hne1,
        GameBalance.skillGrowthOnCritical]
    · intro h8
      have h7 : ¬ L ≤ 7 := by omega
      simp only [processAttack, hfind, hfire, processAttackFromHitRoll, Rng.next, hskill,
        Bool.true_eq_false, false_and, if_false, if_neg hnotmiss, hcrit, and_true,
        true_and, if_true, h7]
      by_cases hL10 : L < 10
      · have hL10m : L < GameBalance.maxSkillLevel := by
          simp only [GameBalance.maxSkillLevel]; omega
        simp [processAttackDamage_skills, hL10, hL10m, skillGet_skillSet_self, hne1,
          GameBalance.skillGrowthOnCritical]
      · have hL10m : ¬ L < GameBalance.maxSkillLevel := by
          simp only [GameBalance.maxSkillLevel]; omega
        simp [processAttackDamage_skills, hL10, hL10m, hskill]

/-- Witness for the amended C4 theorem: a critical from melee level 1
against the fixture Walker raises Melee to 2. -/
theorem crit_growth_amended_witness :
    skillGet (processAttack fixtureState fixtureCombat ⟨[0, 0]⟩ "z1").1.skills "Melee" = 1 + 1 :=
  (crit_growth_amended.1 fixtureState fixtureCombat "z1"
      { id := "z1", name := "Walker", hp := 30, maxHp := 30, status := "Active" } 1 0 0 []
      (by norm_num +decide [findEnemy, fixtureState])
      (by norm_num +decide [isFirearm, effectiveWeapon, fixtureState, strToLower, strHasSub])
      (by norm_num +decide [skillGet, fixtureState, List.lookup])
      (by norm_num)
      (by norm_num [calculateSkillSuccessChance, GameBalance.baseSuccessChance,
        GameBalance.bonusPerLevel, GameBalance.maxSkillLevel])
      (by norm_num +decide [rollCriticalHit, GameBalance.criticalHitChance,
        GameBalance.meleeCritBonus, GameBalance.headshotBonus])).1
    (by norm_num)

/-! ## C5 amended -/

theorem enemyTurnGo_amended (defended : Bool) (maxHp : ℚ) (es : List Enemy) :
    ∀ (hp : ℚ) (tape : List ℚ),
      (enemyTurnGo defended maxHp es hp ⟨tape⟩).1
          = (amendedEnemyTurn defended es hp tape).1
        ∧ (enemyTurnGo defended maxHp es hp ⟨tape⟩).2.1
          = (amendedEnemyTurn defended es hp tape).2.1
        ∧ (enemyTurnGo defended maxHp es hp ⟨tape⟩).2.2.2.map (fun c => c.amount)
          = (amendedEnemyTurn defended es hp tape).2.2.2 := by
  have hhalf : (1 : ℚ) - GameBalance.defenseDamageReduction = 0.5 := by
    norm_num [GameBalance.defenseDamageReduction]
  induction es with
  | nil =>
    intro hp tape
    simp [enemyTurnGo, amendedEnemyTurn]
  | cons e rest ih =>
    intro hp tape
    by_cases halive : e.hp > 0
    · by_cases hstun : strHasSub (strToLower e.status) "stun" = true
      · have h := ih hp tape
        simp only [enemyTurnGo, amendedEnemyTurn, halive, hstun, if_true, if_pos,
          List.map_cons]
        exact ⟨by rw [h.1], h.2.1, by rw [h.2.2]⟩
      · cases tape with
        | nil =>
          simp only [enemyTurnGo, amendedEnemyTurn, halive, hstun, if_true, if_pos,
            Bool.false_eq_true, if_false, Rng.next, List.map_cons, List.headD, List.tail,
            amendedEnemyDamage, hhalf, decide_eq_true_eq]
          norm_num
          exact ⟨(ih _ []).1, (ih _ []).2.1, (ih _ []).2.2⟩
        | cons r t =>
          simp only [enemyTurnGo, amendedEnemyTurn, halive, hstun, if_true, if_pos,
            Bool.false_eq_true, if_false, Rng.next, List.map_cons, List.headD, List.tail,
            amendedEnemyDamage, hhalf, decide_eq_true_eq]
          norm_num
          exact ⟨(ih _ t).1, (ih _ t).2.1, (ih _ t).2.2⟩
    · have h := ih hp tape
      simp only [enemyTurnGo, amendedEnemyTurn, halive, if_neg halive, if_false]
      exact ⟨by rw [h.1], h.2.1, by rw [h.2.2]⟩

/-- C5 (amended): over an arbitrary enemy list and random tape, the enemy
turn threads the player hp through the enemies in order: each alive,
non-stunned enemy consumes one tape draw r and deals
`max(1, floor((if defending then floor(base × 0.5) else base) × (0.8 + 0.4·r)))`
damage — the defend halving is floored first and applied before the
variance, the clamp to at least 1 comes last, base is 15 when maxHp > 50
and 8 otherwise, and the shared defend flag applies to every enemy; a
stunned enemy deals nothing and has its status reset to Active; dead
enemies are skipped; afterwards the round increments and AP resets. -/
theorem enemy_turn_damage_amended (gs : GameState) (cs : CombatState) (rng : Rng) :
    (processEnemyTurn gs cs rng).1.hp
        = (amendedEnemyTurn cs.defendActive gs.enemies gs.hp rng.tape).2.1
      ∧ (processEnemyTurn gs cs rng).1.enemies
        = (amendedEnemyTurn cs.defendActive gs.enemies gs.hp rng.tape).1
      ∧ (processEnemyTurn gs cs rng).2.2.2.map (fun c => c.amount)
        = (amendedEnemyTurn cs.defendActive gs.enemies gs.hp rng.tape).2.2.2
      ∧ (processEnemyTurn gs cs rng).2.1.round = cs.round + 1
      ∧ (processEnemyTurn gs cs rng).2.1.playerActionPoints
        = GameBalance.baseActionPoints := by
  obtain ⟨tape⟩ := rng
  have h := enemyTurnGo_amended cs.defendActive gs.maxHp gs.enemies gs.hp tape
  exact ⟨h.2.1, h.1, h.2.2, rfl, rfl⟩

/-- Witness for the amended C5 theorem: a defended two-enemy turn (Tank
then Walker, draws 0 and 1/2) deals 5 then 4 damage, leaving hp 91. -/
theorem enemy_turn_damage_amended_witness :
    (processEnemyTurn fixtureTwoEnemyState { fixtureCombat with defendActive := true }
          ⟨[0, 1 / 2]⟩).1.hp = 91
      ∧ (processEnemyTurn fixtureTwoEnemyState { fixtureCombat with defendActive := true }
            ⟨[0, 1 / 2]⟩).2.2.2.map (fun c => c.amount) = [some 5, some 4] := by
  have h := enemy_turn_damage_amended fixtureTwoEnemyState
    { fixtureCombat with defendActive := true } ⟨[0, 1 / 2]⟩
  constructor
  · rw [h.1]
    norm_num +decide [amendedEnemyTurn, amendedEnemyDamage, fixtureTwoEnemyState,
      fixtureState, strToLower, strHasSub, List.headD, List.tail]
  · rw [h.2.2.1]
    norm_num +decide [amendedEnemyTurn, amendedEnemyDamage, fixtureTwoEnemyState,
      fixtureState, strToLower, strHasSub, List.headD, List.tail]


/-! ## Further shared helper lemmas -/

theorem checkCombatEnd_preserves (gs : GameState) (cs : CombatState) :
    (checkCombatEnd gs cs).1.hp = gs.hp
      ∧ (checkCombatEnd gs cs).1.inventory = gs.inventory
      ∧ (checkCombatEnd gs cs).2.playerActionPoints = cs.playerActionPoints
      ∧ (checkCombatEnd gs cs).2.round = cs.round := by
  unfold checkCombatEnd
  split_ifs <;> simp

theorem processAttackDamage_ap (gs : GameState) (cs : CombatState) (rng : Rng)
    (target : Enemy) (isF : Bool) (L : ℤ) (crit : Bool) :
    (processAttackDamage gs cs rng target isF L crit).2.1.playerActionPoints
        = cs.playerActionPoints
      ∨ (processAttackDamage gs cs rng target isF L crit).2.1.playerActionPoints
        = min (cs.playerActionPoints + 1) GameBalance.maxActionPoints := by
  simp only [processAttackDamage]
  split_ifs <;> simp_all

theorem processAttackFromHitRoll_ap (gs : GameState) (cs : CombatState) (rng : Rng)
    (target : Enemy) (isF : Bool) (L : ℤ) :
    (processAttackFromHitRoll gs cs rng target isF L).2.1.playerActionPoints
        = cs.playerActionPoints
      ∨ (processAttackFromHitRoll gs cs rng target isF L).2.1.playerActionPoints
        = min (cs.playerActionPoints + 1) GameBalance.maxActionPoints := by
  simp only [processAttackFromHitRoll]
  split_ifs <;> first
    | (left; rfl)
    | (right; rfl)
    | apply processAttackDamage_ap

theorem processAttack_ap (gs : GameState) (cs : CombatState) (rng : Rng) (tid : String) :
    (processAttack gs cs rng tid).2.1.playerActionPoints = cs.playerActionPoints
      ∨ (processAttack gs cs rng tid).2.1.playerActionPoints
        = min (cs.playerActionPoints + 1) GameBalance.maxActionPoints := by
  simp only [processAttack]
  rcases h : findEnemy gs.enemies tid with _ | target
  · left; rfl
  · simp only []
    split_ifs <;> first
      | (left; rfl)
      | apply processAttackFromHitRoll_ap

theorem dispatchAction_ap (gs : GameState) (cs : CombatState) (rng : Rng)
    (action : CombatAction) :
    (dispatchAction gs cs rng action).2.1.playerActionPoints = cs.playerActionPoints
      ∨ (dispatchAction gs cs rng action).2.1.playerActionPoints
        = min (cs.playerActionPoints + 1) GameBalance.maxActionPoints := by
  obtain ⟨ty, tid, iid, dir⟩ := action
  cases ty
  · exact processAttack_ap gs cs rng (tid.getD "")
  · left; rfl
  · left; rfl
  · simp only [dispatchAction, processFlee]
    split_ifs <;> (left; rfl)
  · left; rfl

theorem processEnemyTurn_ap (gs : GameState) (cs : CombatState) (rng : Rng) :
    (processEnemyTurn gs cs rng).2.1.playerActionPoints = GameBalance.baseActionPoints := rfl

theorem isActionValid_necessary (gs : GameState) (cs : CombatState) (a : CombatAction)
    (h : isActionValid gs cs a = true) :
    cs.phase = CombatPhase.playerTurn ∧ 1 ≤ cs.playerActionPoints := by
  unfold isActionValid at h
  split_ifs at h with hph hap
  all_goals first
    | exact ⟨not_not.mp hph, by omega⟩
    | exact absurd h (by simp)

/-! ## C10 -/

/-- C10: a valid `use_item` on an inventory item whose lower-cased name
contains none of "bandage", "medkit", "heal" yields the single failed
result "cannot be used in combat", leaves hp and the inventory unchanged,
and still deducts exactly 1 AP; at 1 AP the deduction triggers the enemy
turn (round increments and AP resets to base). -/
theorem useItem_nonhealing (gs : GameState) (cs : CombatState) (rng : Rng) (i : String)
    (hphase : cs.phase = CombatPhase.playerTurn)
    (hi : i ≠ "")
    (hinv : gs.inventory.contains i = true)
    (h1 : strHasSub (strToLower i) "bandage" = false)
    (h2 : strHasSub (strToLower i) "medkit" = false)
    (h3 : strHasSub (strToLower i) "heal" = false) :
    (2 ≤ cs.playerActionPoints →
      (processAction gs cs rng { type := CombatActionType.useItem, itemId := some i }).2.2.2
          = [{ success := false, rtype := ResultType.heal,
               message := i ++ " cannot be used in combat" }]
        ∧ (processAction gs cs rng
            { type := CombatActionType.useItem, itemId := some i }).1.hp = gs.hp
        ∧ (processAction gs cs rng
            { type := CombatActionType.useItem, itemId := some i }).1.inventory = gs.inventory
        ∧ (processAction gs cs rng
            { type := CombatActionType.useItem, itemId := some i }).2.1.playerActionPoints
          = cs.playerActionPoints - 1)
    ∧ (cs.playerActionPoints = 1 →
      (processAction gs cs rng
          { type := CombatActionType.useItem, itemId := some i }).1.inventory = gs.inventory
        ∧ (processAction gs cs rng
            { type := CombatActionType.useItem, itemId := some i }).2.1.round = cs.round + 1
        ∧ (processAction gs cs rng
            { type := CombatActionType.useItem, itemId := some i }).2.1.playerActionPoints
          = GameBalance.baseActionPoints) := by
  constructor
  · intro hap
    have hap1 : ¬ cs.playerActionPoints < 1 := by omega
    have hmem : i ∈ gs.inventory := by simpa using hinv
    have hval : isActionValid gs cs { type := CombatActionType.useItem, itemId := some i }
        = true := by
      simp [isActionValid, hphase, hap1, hi, hmem]
    have hstep : ¬ (cs.playerActionPoints - 1 ≤ 0) := by omega
    simp only [processAction, hval, dispatchAction, processUseItem, h1, h2, h3,
      Bool.false_eq_true, Bool.or_self, if_false, Option.getD, hstep,
      checkCombatEnd_preserves]
    simp [hstep, checkCombatEnd_preserves, hval]
    rfl
  · intro hap
    have hap1 : ¬ cs.playerActionPoints < 1 := by omega
    have hmem : i ∈ gs.inventory := by simpa using hinv
    have hval : isActionValid gs cs { type := CombatActionType.useItem, itemId := some i }
        = true := by
      simp [isActionValid, hphase, hap1, hi, hmem]
    have hstep : cs.playerActionPoints - 1 ≤ 0 := by omega
    simp only [processAction, hval, dispatchAction, processUseItem, h1, h2, h3,
      Bool.false_eq_true, Bool.or_self, if_false, Option.getD, hstep,
      processEnemyTurn]
    simp [hstep, hval, processEnemyTurn, checkCombatEnd]
    refine ⟨?_, ?_, ?_⟩ <;> split_ifs <;> rfl

/-- Witness for C10 at the fixture with a "Rope" in the inventory. -/
theorem useItem_nonhealing_witness :
    (processAction fixtureRopeState fixtureCombat ⟨[]⟩
          { type := CombatActionType.useItem, itemId := some "Rope" }).2.2.2
        = [{ success := false, rtype := ResultType.heal,
             message := "Rope" ++ " cannot be used in combat" }]
      ∧ (processAction fixtureRopeState fixtureCombat ⟨[]⟩
            { type := CombatActionType.useItem, itemId := some "Rope" }).1.hp
        = fixtureRopeState.hp
      ∧ (processAction fixtureRopeState fixtureCombat ⟨[]⟩
            { type := CombatActionType.useItem, itemId := some "Rope" }).1.inventory
        = fixtureRopeState.inventory
      ∧ (processAction fixtureRopeState fixtureCombat ⟨[]⟩
            { type := CombatActionType.useItem,
              itemId := some "Rope" }).2.1.playerActionPoints
        = fixtureCombat.playerActionPoints - 1 :=
  (useItem_nonhealing fixtureRopeState fixtureCombat ⟨[]⟩ "Rope"
    (by decide) (by decide) (by decide) (by decide) (by decide) (by decide)).1 (by decide)

/-! ## C8 -/

/-- C8: `processAction` keeps `playerActionPoints` within
`[0, maxActionPoints]`: an invalid action changes nothing, a valid one
requires at least 1 AP, the attack refund is capped at the maximum, each
deduction is exactly 1, and the enemy-turn reset restores the base
value. -/
theorem processAction_ap_bounds (gs : GameState) (cs : CombatState) (rng : Rng)
    (action : CombatAction)
    (h0 : 0 ≤ cs.playerActionPoints)
    (h3 : cs.playerActionPoints ≤ GameBalance.maxActionPoints) :
    0 ≤ (processAction gs cs rng action).2.1.playerActionPoints
      ∧ (processAction gs cs rng action).2.1.playerActionPoints
        ≤ GameBalance.maxActionPoints := by
  by_cases hv : isActionValid gs cs action = true
  · have hmax : GameBalance.maxActionPoints = 3 := rfl
    obtain ⟨hph, hap⟩ := isActionValid_necessary gs cs action hv
    have hvne : ¬ isActionValid gs cs action = false := by simp [hv]
    have hd := dispatchAction_ap gs cs rng action
    simp only [processAction, if_neg hvne]
    generalize hgen : dispatchAction gs cs rng action = t at hd ⊢
    obtain ⟨g1, c1, r1, res1⟩ := t
    simp only [] at hd ⊢
    have h3x : cs.playerActionPoints ≤ 3 := by rw [hmax] at h3; exact h3
    have hap1b : 1 ≤ c1.playerActionPoints ∧ c1.playerActionPoints ≤ 3 := by
      rcases hd with h | h
      · rw [h]; exact ⟨hap, h3x⟩
      · rw [h, hmax]; exact ⟨le_min (by omega) (by omega), min_le_right _ _⟩
    by_cases hb : (decide (action.type = CombatActionType.flee) &&
        (match res1.head? with
         | some r => decide (r.rtype = ResultType.fleeSuccess)
         | none => false)) = true
    · simp only [hb, if_true, if_pos]
      have hle : ¬ c1.playerActionPoints ≤ 0 := by omega
      simp only [if_neg hle]
      simp [checkCombatEnd_preserves]
      rw [hmax]
      omega
    · simp only [Bool.not_eq_true] at hb
      simp only [hb, Bool.false_eq_true, if_false]
      by_cases hle : c1.playerActionPoints - 1 ≤ 0
      · simp only [if_pos hle]
        simp [checkCombatEnd_preserves, processEnemyTurn_ap]
        decide
      · simp only [if_neg hle]
        simp [checkCombatEnd_preserves]
        rw [hmax]
        omega
  · have hvf : isActionValid gs cs action = false := by
      cases h : isActionValid gs cs action
      · rfl
      · exact absurd h hv
    simp [processAction, hvf]
    exact ⟨h0, h3⟩

/-- Witness for C8 at the fixture state with a defend action. -/
theorem processAction_ap_bounds_witness :
    0 ≤ (processAction fixtureState fixtureCombat ⟨[]⟩
          { type := CombatActionType.defend }).2.1.playerActionPoints
      ∧ (processAction fixtureState fixtureCombat ⟨[]⟩
            { type := CombatActionType.defend }).2.1.playerActionPoints
        ≤ GameBalance.maxActionPoints :=
  processAction_ap_bounds fixtureState fixtureCombat ⟨[]⟩
    { type := CombatActionType.defend } (by decide) (by decide)

/-! ## Grid helper lemmas for the visibility claims -/

theorem get?_setListAt {α : Type} (xs : List α) (n m : ℕ) (f : α → α) :
    (setListAt xs n f).get? m = if m = n then (xs.get? n).map f else xs.get? m := by
  induction xs generalizing n m with
  | nil => simp [setListAt]
  | cons a as ih =>
    cases n with
    | zero =>
      cases m with
      | zero => simp [setListAt]
      | succ m => simp [setListAt]
    | succ n =>
      cases m with
      | zero => simp [setListAt]
      | succ m => simpa [setListAt] using ih n m

theorem gridGetN_setGrid (ts : List (List Tile)) (x y i j : ℕ) (f : Tile → Tile) :
    gridGetN (setGrid ts x y f) i j
      = if i = x ∧ j = y then (gridGetN ts x y).map f else gridGetN ts i j := by
  unfold gridGetN setGrid
  rw [get?_setListAt]
  by_cases hj : j = y
  · subst hj
    rcases h : ts.get? j with _ | row
    · simp [h]
    · simp only [h, Option.map_some', Option.some_bind, if_true, and_true]
      exact get?_setListAt row x i f
  · simp [hj]

theorem markVisitedTile_get (w : WorldMap) (p : ℤ × ℤ) (i j : ℕ) :
    gridGetN (markVisitedTile w p).tiles i j = gridGetN w.tiles i j
      ∨ gridGetN (markVisitedTile w p).tiles i j
        = (gridGetN w.tiles i j).map markTile := by
  unfold markVisitedTile
  split_ifs with h
  · unfold setGridZ
    split_ifs with hpos
    · simp only []
      rw [gridGetN_setGrid]
      by_cases hij : i = p.1.toNat ∧ j = p.2.toNat
      · right
        rw [if_pos hij, hij.1, hij.2]
      · left
        rw [if_neg hij]
    · left; rfl
  · left; rfl

theorem option_map_markTile_idem (o : Option Tile) :
    (o.map markTile).map markTile = o.map markTile := by
  cases o <;> rfl

theorem foldl_markVisited_get (ps : List (ℤ × ℤ)) (w : WorldMap) (i j : ℕ) :
    gridGetN (ps.foldl markVisitedTile w).tiles i j = gridGetN w.tiles i j
      ∨ gridGetN (ps.foldl markVisitedTile w).tiles i j
        = (gridGetN w.tiles i j).map markTile := by
  induction ps generalizing w with
  | nil => left; rfl
  | cons p ps ih =>
    simp only [List.foldl_cons]
    rcases ih (markVisitedTile w p) with h | h <;>
      rcases markVisitedTile_get w p i j with h2 | h2
    · left; rw [h, h2]
    · right; rw [h, h2]
    · right; rw [h, h2]
    · right; rw [h, h2, option_map_markTile_idem]

theorem get?_mapIdxFrom {α : Type} (f : ℕ → α → α) (k n : ℕ) (xs : List α) :
    (mapIdxFrom f k xs).get? n = (xs.get? n).map (f (k + n)) := by
  induction xs generalizing k n with
  | nil => simp [mapIdxFrom]
  | cons a as ih =>
    cases n with
    | zero => simp [mapIdxFrom]
    | succ n =>
      simp only [mapIdxFrom, List.get?_cons_succ]
      rw [ih]
      have harith : k + 1 + n = k + (n + 1) := by omega
      rw [harith]

theorem gridGetN_clearVisible (w : WorldMap) (hwf : WF w) (i j : ℕ) :
    gridGetN (clearVisibleTiles w).tiles i j
      = (gridGetN w.tiles i j).map (fun t => { t with visible := false }) := by
  unfold clearVisibleTiles gridGetN
  simp only []
  rw [get?_mapIdxFrom]
  rcases h : w.tiles.get? j with _ | row
  · simp
  · have hj : j < w.tiles.length := by
      by_contra hc
      rw [List.get?_eq_none.mpr (by omega)] at h
      exact Option.noConfusion h
    have hjh : j < w.height := by rw [hwf.1] at hj; exact hj
    have hrow : row ∈ w.tiles := List.get?_mem h
    have hrw : row.length = w.width := hwf.2 row hrow
    simp only [Option.map_some', Option.some_bind, Nat.zero_add, if_pos hjh]
    rw [get?_mapIdxFrom]
    rcases h2 : row.get? i with _ | t
    · simp
    · have hi : i < row.length := by
        by_contra hc
        rw [List.get?_eq_none.mpr (by omega)] at h2
        exact Option.noConfusion h2
      have hiw : i < w.width := by rw [hrw] at hi; exact hi
      simp [if_pos hiw]

theorem visibility_invariants_amended (world : WorldMap) (x y : ℤ) (radius : ℕ)
    (hwf : WF world) :
    TileInvP (updateVisibility world x y radius)
      ∧ (TileInvP world → TileInvP (calculateFOV world x y radius).1)
      ∧ exploredMonoP world (calculateFOV world x y radius).1
      ∧ exploredMonoP world (updateVisibility world x y radius) := by
  have hfovInv : ∀ (w : WorldMap), TileInvP w → TileInvP (calculateFOV w x y radius).1 := by
    intro w hw i j t hget hv
    rcases foldl_markVisited_get (fovVisited (lightPasses w) x y radius) w i j with hc | hc
    · rw [calculateFOV] at hget
      simp only [] at hget
      rw [hc] at hget
      exact hw i j t hget hv
    · rw [calculateFOV] at hget
      simp only [] at hget
      rw [hc] at hget
      rcases h0 : gridGetN w.tiles i j with _ | t0
      · rw [h0] at hget; exact Option.noConfusion hget
      · rw [h0] at hget
        simp only [Option.map_some'] at hget
        have : t = markTile t0 := (Option.some.injEq _ _ ▸ hget).symm
        rw [this]
        rfl
  have hfovMono : ∀ (w : WorldMap), exploredMonoP w (calculateFOV w x y radius).1 := by
    intro w i j t t2 hget hget2 he
    rcases foldl_markVisited_get (fovVisited (lightPasses w) x y radius) w i j with hc | hc
    · rw [calculateFOV] at hget2
      simp only [] at hget2
      rw [hc, hget] at hget2
      have : t2 = t := (Option.some.injEq _ _ ▸ hget2).symm
      rw [this]; exact he
    · rw [calculateFOV] at hget2
      simp only [] at hget2
      rw [hc, hget] at hget2
      simp only [Option.map_some'] at hget2
      have : t2 = markTile t := (Option.some.injEq _ _ ▸ hget2).symm
      rw [this]
      rfl
  have hclearInv : TileInvP (clearVisibleTiles world) := by
    intro i j t hget hv
    rw [gridGetN_clearVisible world hwf] at hget
    rcases h0 : gridGetN world.tiles i j with _ | t0
    · rw [h0] at hget; exact Option.noConfusion hget
    · rw [h0] at hget
      simp only [Option.map_some'] at hget
      have : t = { t0 with visible := false } := (Option.some.injEq _ _ ▸ hget).symm
      rw [this] at hv
      exact absurd hv (by simp)
  refine ⟨?_, fun h => hfovInv world h, hfovMono world, ?_⟩
  · exact hfovInv (clearVisibleTiles world) hclearInv
  · intro i j t t2 hget hget2 he
    have hmid : gridGetN (clearVisibleTiles world).tiles i j = some { t with visible := false } := by
      rw [gridGetN_clearVisible world hwf, hget]
      rfl
    exact hfovMono (clearVisibleTiles world) i j { t with visible := false } t2 hmid hget2 he

/-- Witness for the amended C7 theorem at the 1×1 floor world. -/
theorem visibility_invariants_amended_witness :
    TileInvP (updateVisibility tinyWorld 0 0 1) :=
  (visibility_invariants_amended tinyWorld 0 0 1
    (by
      constructor
      · rfl
      · intro row hr
        simp only [tinyWorld, List.mem_singleton] at hr
        subst hr
        rfl)).1

/-- C7 (counterexample): `calculateFOV` does not clear stale `visible`
flags: on the 2×1 world whose second tile starts `visible` but not
`explored`, a radius-0 FOV from `(0,0)` leaves that tile visible and
unexplored, so "visible implies explored after any recompute on any
world" fails for `calculateFOV`. -/
theorem calculateFOV_stale_visible_counterexample :
    (gridGetN (calculateFOV staleVisibleWorld 0 0 0).1.tiles 1 0).map
        (fun t => t.visible && !t.explored) = some true := by
  decide

/-! ## C1 -/

/-- C1: with the width and height positive and a (non-empty) seed
provided, both generators are pure functions of `(width, height, seed)`:
the incoming global RNG state is overwritten by `setSeed` and `Date.now()`
is never consulted, so two calls with identical arguments produce
identical worlds. -/
theorem generation_deterministic (w h : ℕ) (s : String) (now1 now2 : ℕ) (g1 g2 : RotRNG)
    (hw : 0 < w) (hh : 0 < h) (hs : s ≠ "") :
    (generateProceduralWorld w h (some s) now1 g1).1
        = (generateProceduralWorld w h (some s) now2 g2).1
      ∧ (generateCellularWorld w h (some s) now1 g1).1
        = (generateCellularWorld w h (some s) now2 g2).1 := by
  constructor
  · simp [generateProceduralWorld, hs]
  · simp [generateCellularWorld, hs]

/-- Witness for C1 on a 3×3 world with seed "7" and differing clock values
and incoming RNG states. -/
theorem generation_deterministic_witness :
    (generateProceduralWorld 3 3 (some "7") 1 5).1
        = (generateProceduralWorld 3 3 (some "7") 2 6).1
      ∧ (generateCellularWorld 3 3 (some "7") 1 5).1
        = (generateCellularWorld 3 3 (some "7") 2 6).1 :=
  generation_deterministic 3 3 "7" 1 2 5 6 (by decide) (by decide) (by decide)

end ZomB
